import Mathlib

/-!
Shallow embedding of the TrueChain genesis-bootstrap and snail-block
validation core:

* `core/genesis.go` — `Genesis`, `SetupGenesisBlock`, `setupFastGenesisBlock`,
  `setupSnailGenesisBlock`, `CommitFast`, `CommitSnail`, `ToFastBlock`,
  `ToSnailBlock`, `configOrDefault`, `DefaultGenesisBlock`.
* `core/snailchain/block_validator.go` — `BlockValidator.ValidateBody`,
  `BlockValidator.ValidateFruit`.

Representation choices:
* hashes, addresses, byte strings, public keys, signatures and chain
  configurations are abstracted to `Nat` (an injective representation; the
  empty Go hash `common.Hash{}` is `0`);
* Go `uint64` arithmetic is `Nat` with explicit `% 2^64` at every `Uint64()`
  conversion site, and `sub64` is wrapping `uint64` subtraction;
* Go `*big.Int` block times are `Option Int` (`none` models a nil pointer,
  which the source nil-checks explicitly);
* external collaborators (the keccak hash, the state-trie root, the crypto
  library, the consensus engine, `ChainConfig.CheckCompatible`, and the
  `params` package constants that are not part of the two source files) are
  fields of an environment structure, so every theorem holds for every
  behaviour of the collaborators;
* fallible Go functions return `Except`; a Go runtime panic (nil-pointer
  dereference, index out of range) is the distinguished error
  `goPanic site`, which no source function ever returns as a Go `error`.
-/

deriving instance DecidableEq for Except

/-- Hashes are abstracted to naturals; `0` is the empty hash `common.Hash{}`. -/
abbrev Hash := Nat

/-- Account / coinbase addresses. -/
abbrev Address := Nat

/-- Raw byte strings (public-key encodings, extra data), read as big-endian
naturals. -/
abbrev Bytes := Nat

/-- Parsed ECDSA public keys (result of `crypto.UnmarshalPubkey`). -/
abbrev Pubkey := Nat

/-- Committee signatures (`types.PbftSign`). -/
abbrev Sign := Nat

/-- Chain configurations (`params.ChainConfig`), abstracted to an identifier. -/
abbrev Config := Nat

/-- Models `params.AllMinervaProtocolChanges`. -/
def allMinervaProtocolChanges : Config := 0

/-- Models `params.MainnetChainConfig`. -/
def mainnetChainConfig : Config := 1

/-- Models `params.TestnetChainConfig`. -/
def testnetChainConfig : Config := 2

/-- Models `params.DevnetChainConfig`. -/
def devnetChainConfig : Config := 3

/-- Modelled from the spec: `params.MainnetGenesisHash`, a keccak constant not
present in the source files; its concrete value is irrelevant to every claim. -/
def MainnetGenesisHash : Hash := 1001

/-- Modelled from the spec: `params.MainnetSnailGenesisHash`. -/
def MainnetSnailGenesisHash : Hash := 1002

/-- Modelled from the spec: `params.TestnetGenesisHash`. -/
def TestnetGenesisHash : Hash := 1003

/-- Modelled from the spec: `params.TestnetSnailGenesisHash`. -/
def TestnetSnailGenesisHash : Hash := 1004

/-- Modelled from the spec: `types.StateUsedFlag`, the "active" committee
member flag; the concrete value is not in the source files. -/
def StateUsedFlag : Nat := 1

/-- Modelled from the spec: `types.TypeFixed`, the "fixed / not swappable"
committee member type tag. -/
def TypeFixed : Nat := 1

/-- Wrapping `uint64` subtraction: `a - b` in Go on `uint64` values. -/
def sub64 (a b : Nat) : Nat := (a % 2 ^ 64 + (2 ^ 64 - b % 2 ^ 64)) % 2 ^ 64

/-- A fast-chain header (`types.Header`); only the fields this core reads or
writes are retained. -/
structure FastHeader where
  number : Nat
  time : Option Int
  parentHash : Hash
  extra : Bytes
  gasLimit : Nat
  gasUsed : Nat
  root : Hash
deriving DecidableEq, Repr

/-- A committee member (`types.CommitteeMember`). -/
structure CommitteeMember where
  coinbase : Address
  committeeBase : Address
  publickey : Bytes
  flag : Nat
  mtype : Nat
deriving DecidableEq, Repr

/-- A fast-chain block (`types.Block`): header plus the committee switch-info
members recorded at height zero. -/
structure FastBlock where
  header : FastHeader
  committee : List CommitteeMember
deriving DecidableEq, Repr

/-- A snail-chain header (`types.SnailHeader`); only consumed fields kept. -/
structure SnailHeader where
  number : Nat
  nonce : Nat
  time : Option Int
  parentHash : Hash
  extra : Bytes
  difficulty : Option Int
  fruitDifficulty : Option Int
  mixDigest : Hash
  coinbase : Address
  fastNumber : Nat
  fastHash : Hash
  signHash : Hash
  fruitsHash : Hash
deriving DecidableEq, Repr

/-- A fruit: in the source a fruit is a `types.SnailBlock` whose only consumed
parts are its header and its signature list. -/
structure Fruit where
  header : SnailHeader
  signs : List Sign
deriving DecidableEq, Repr

/-- A snail-chain block: header, fruit list, signature list. -/
structure SnailBlock where
  header : SnailHeader
  fruits : List Fruit
  signs : List Sign
deriving DecidableEq, Repr

/-- `fruit.FastNumber()` as a `big.Int` (non-negative). -/
def Fruit.fastNumber (f : Fruit) : Nat := f.header.fastNumber

/-- `fruit.FastNumber().Uint64()`. -/
def Fruit.fastNumberU64 (f : Fruit) : Nat := f.header.fastNumber % 2 ^ 64

/-- `fruit.FastHash()`. -/
def Fruit.fastHash (f : Fruit) : Hash := f.header.fastHash

/-- `fruit.Time()`. -/
def Fruit.time (f : Fruit) : Option Int := f.header.time

/-- `block.NumberU64()`. -/
def SnailBlock.numberU64 (b : SnailBlock) : Nat := b.header.number % 2 ^ 64

/-- `block.ParentHash()`. -/
def SnailBlock.parentHash (b : SnailBlock) : Hash := b.header.parentHash

/-- `block.Time()`. -/
def SnailBlock.time (b : SnailBlock) : Option Int := b.header.time

/-- Validation errors of `ValidateBody` / `ValidateFruit`.  Engine-delegated
failures are wrapped in `engine`; `goPanic` models a Go runtime panic (it is
never a returned Go `error`). -/
inductive VErr where
  | errKnownBlock
  | errUnknownAncestor
  | errPrunedAncestor
  | errNoFruits
  | errInvalidFruits
  | errGapFruits
  | errFruitTime
  | errBlockTime
  | errFutureBlock
  | errInvalidFast
  | errInvalidSignHash
  | fruitsHashMismatch (got want : Hash)
  | engine (e : Nat)
  | goPanic (site : Nat)
deriving DecidableEq, Repr

/-- Panic site: `localFruits[len(localFruits)-1]` on an empty parent fruit
list (`ValidateBody`, line 124). -/
def panicParentNoFruit : Nat := 0

/-- Panic site: `fruits[0]` / `fruits[len(fruits)-1]` on an empty candidate
fruit list (`ValidateBody`, lines 127-128; unreachable past the count check). -/
def panicNoFruit : Nat := 1

/-- Panic site: `new(big.Int).Sub(maxfb.Time, minfb.Time)` with a nil time
(`ValidateBody`, line 136). -/
def panicNilTime : Nat := 2

/-- The environment of `BlockValidator`: the snail chain `v.bc`, the fast
chain `v.fastchain`, the consensus engine `v.engine`, the hash collaborators,
and the `params` bounds the validator compares against.  Engine checks return
`none` for success and `some e` for an engine error `e`. -/
structure VEnv where
  isCanonicalBlock : Hash → Nat → Bool
  hasBlock : Hash → Nat → Bool
  getBlock : Hash → Nat → Option SnailBlock
  getFastHeader : Hash → Nat → Option FastHeader
  currentFastNumber : Nat
  verifyFreshness : SnailHeader → Option SnailHeader → Bool → Option Nat
  verifySnailHeader : SnailHeader → Bool → Bool → Option Nat
  verifySigns : Nat → Hash → List Sign → Option Nat
  calcSignHash : List Sign → Hash
  deriveSha : List Fruit → Hash
  snailBlockHash : SnailBlock → Hash
  maximumFruits : Nat
  minimumFruits : Nat
  minTimeGap : Int

/-- `BlockValidator.ValidateFruit(fruit, block, canonical)`
(`block_validator.go` lines 172-225): future-anchor check, fast-header
resolution, fruit-time check, signature-digest integrity, then the three
engine delegations in source order. -/
def ValidateFruit (E : VEnv) (fruit : Fruit) (block : Option SnailBlock)
    (canonical : Bool) : Except VErr Unit :=
  if fruit.fastNumber > E.currentFastNumber then .error VErr.errFutureBlock
  else
    match E.getFastHeader fruit.fastHash fruit.fastNumberU64 with
    | none => .error VErr.errInvalidFast
    | some fb =>
      match fruit.time, fb.time with
      | some ft, some fbt =>
        if ft < fbt then .error VErr.errFruitTime
        else if E.calcSignHash fruit.signs ≠ fruit.header.signHash then
          .error VErr.errInvalidSignHash
        else
          match E.verifyFreshness fruit.header (block.map SnailBlock.header) canonical with
          | some e => .error (VErr.engine e)
          | none =>
            match E.verifySnailHeader fruit.header true true with
            | some e => .error (VErr.engine e)
            | none =>
              match E.verifySigns fruit.fastNumber fruit.fastHash fruit.signs with
              | some e => .error (VErr.engine e)
              | none => .ok ()
      | _, _ => .error VErr.errFruitTime

/-- The fruit loop of `ValidateBody` (lines 142-155): for each fruit in order,
the wrapping-`uint64` contiguity test against `temp`, then `ValidateFruit`,
then `temp` advances to the fruit's anchored number. -/
def validateFruitSeq (E : VEnv) (block : SnailBlock) :
    Nat → List Fruit → Except VErr Unit
  | _, [] => .ok ()
  | temp, f :: rest =>
    if sub64 f.fastNumberU64 temp ≠ 1 then .error VErr.errInvalidFruits
    else
      match ValidateFruit E f (some block) false with
      | .error e => .error e
      | .ok _ => validateFruitSeq E block f.fastNumberU64 rest

/-- The tail of `ValidateBody` after `temp` has been resolved (lines 126-162):
anchored-range resolution, block-time monotonicity, minimum time gap, the
fruit loop, and the fruit-set hash check. -/
def validateBodyFrom (E : VEnv) (block : SnailBlock) (temp : Nat) :
    Except VErr Unit :=
  match block.fruits.head?, block.fruits.getLast? with
  | some firstF, some lastF =>
    match E.getFastHeader firstF.fastHash firstF.fastNumberU64,
          E.getFastHeader lastF.fastHash lastF.fastNumberU64 with
    | some minfb, some maxfb =>
      match lastF.time, block.time with
      | some lt, some bt =>
        if bt < lt then .error VErr.errBlockTime
        else
          match maxfb.time, minfb.time with
          | some tmax, some tmin =>
            if tmax - tmin < E.minTimeGap then .error VErr.errGapFruits
            else
              match validateFruitSeq E block temp block.fruits with
              | .error e => .error e
              | .ok _ =>
                if E.deriveSha block.fruits = block.header.fruitsHash then .ok ()
                else .error (VErr.fruitsHashMismatch
                  (E.deriveSha block.fruits) block.header.fruitsHash)
          | _, _ => .error (VErr.goPanic panicNilTime)
      | _, _ => .error VErr.errBlockTime
    | _, _ => .error VErr.errFutureBlock
  | _, _ => .error (VErr.goPanic panicNoFruit)

/-- `BlockValidator.ValidateBody(block)` (`block_validator.go` lines 93-163):
known-block check, ancestor linkability, fruit-count bounds, parent lookup
and `temp` initialisation, then `validateBodyFrom`. -/
def ValidateBody (E : VEnv) (block : SnailBlock) : Except VErr Unit :=
  if E.isCanonicalBlock (E.snailBlockHash block) block.numberU64 then
    .error VErr.errKnownBlock
  else if ¬ E.isCanonicalBlock block.parentHash (sub64 block.numberU64 1) then
    if ¬ E.hasBlock block.parentHash (sub64 block.numberU64 1) then
      .error VErr.errUnknownAncestor
    else .error VErr.errPrunedAncestor
  else if block.fruits.length = 0 then .error VErr.errNoFruits
  else if block.fruits.length > E.maximumFruits ∨
          block.fruits.length < E.minimumFruits then .error VErr.errNoFruits
  else
    match E.getBlock block.parentHash (sub64 block.numberU64 1) with
    | none => .error VErr.errUnknownAncestor
    | some preBlock =>
      if preBlock.header.number > 0 then
        match preBlock.fruits.getLast? with
        | none => .error (VErr.goPanic panicParentNoFruit)
        | some lf => validateBodyFrom E block lf.fastNumberU64
      else validateBodyFrom E block 0

/-- A genesis account (`core.GenesisAccount`). -/
structure GenesisAccount where
  code : Bytes
  balance : Int
  nonce : Nat
deriving DecidableEq, Repr

/-- The genesis specification (`core.Genesis`). -/
structure Genesis where
  config : Option Config
  nonce : Nat
  timestamp : Nat
  extraData : Bytes
  gasLimit : Nat
  difficulty : Option Int
  mixhash : Hash
  coinbase : Address
  alloc : List (Address × GenesisAccount)
  committee : List CommitteeMember
  number : Nat
  gasUsed : Nat
  parentHash : Hash
deriving DecidableEq, Repr

/-- Errors of the genesis coordinator.  `goPanic` models a Go runtime panic. -/
inductive GErr where
  | genesisNoConfig
  | genesisMismatch (stored new : Hash)
  | configCompatError (rewindTo : Nat)
  | missingHeadNumber
  | commitNonzero
  | goPanic (site : Nat)
deriving DecidableEq, Repr

/-- Panic site: `*pubkey` dereference after a failed `crypto.UnmarshalPubkey`
whose error is discarded (`genesis.go` lines 277-280). -/
def panicNilPubkey : Nat := 10

/-- Panic site: `block.Hash()` on the nil block returned by a failed
`CommitFast` / `CommitSnail` (`genesis.go` lines 179-180 and 321-322). -/
def panicNilBlockHash : Nat := 11

/-- The collaborators of the genesis coordinator: block hashing, the crypto
library, the state-trie allocation replay, `ChainConfig.CheckCompatible`
(`some rewindTo` models a non-nil `ConfigCompatError`), and the `params`
constants not present in the source files. -/
structure GEnv where
  fastBlockHash : FastBlock → Hash
  snailGBlockHash : SnailBlock → Hash
  unmarshalPubkey : Bytes → Option Pubkey
  pubkeyToAddress : Pubkey → Address
  allocRoot : List (Address × GenesisAccount) → Hash
  checkCompatible : Option Config → Option Config → Nat → Option Nat
  genesisGasLimit : Nat
  genesisDifficulty : Int
  fruitBlockRatioVal : Int

/-- The committee-normalisation loop of `Genesis.ToFastBlock` (lines 276-281):
each member's public key is unmarshalled (the error discarded — a bad key is a
nil-dereference panic), the flags forced to active/fixed, and the committee
base recomputed from the key. -/
def normalizeMembers (E : GEnv) : List CommitteeMember →
    Except GErr (List CommitteeMember)
  | [] => .ok []
  | m :: rest =>
    match E.unmarshalPubkey m.publickey with
    | none => .error (GErr.goPanic panicNilPubkey)
    | some pk =>
      match normalizeMembers E rest with
      | .error e => .error e
      | .ok rest' =>
        .ok ({ m with
               flag := StateUsedFlag
               mtype := TypeFixed
               committeeBase := E.pubkeyToAddress pk } :: rest')

/-- `Genesis.ToFastBlock` (lines 244-283).  The state-trie replay of the
allocation map is abstracted into `E.allocRoot`; the resulting block is a pure
function of the spec. -/
def ToFastBlock (E : GEnv) (g : Genesis) : Except GErr FastBlock :=
  let head : FastHeader :=
    { number := g.number
      time := some (Int.ofNat g.timestamp)
      parentHash := g.parentHash
      extra := g.extraData
      gasLimit := if g.gasLimit = 0 then E.genesisGasLimit else g.gasLimit
      gasUsed := g.gasUsed
      root := E.allocRoot g.alloc }
  match normalizeMembers E g.committee with
  | .error e => .error e
  | .ok members => .ok { header := head, committee := members }

/-- `Genesis.ToSnailBlock` (lines 340-375): the genesis snail block with a
single synthetic fruit anchoring the fast genesis block. -/
def ToSnailBlock (E : GEnv) (g : Genesis) : Except GErr SnailBlock :=
  let gd : Int := g.difficulty.getD E.genesisDifficulty
  let head : SnailHeader :=
    { number := g.number
      nonce := g.nonce
      time := some (Int.ofNat g.timestamp)
      parentHash := g.parentHash
      extra := g.extraData
      difficulty := some gd
      fruitDifficulty := none
      mixDigest := g.mixhash
      coinbase := g.coinbase
      fastNumber := 0
      fastHash := 0
      signHash := 0
      fruitsHash := 0 }
  match ToFastBlock E g with
  | .error e => .error e
  | .ok fastBlock =>
    let fruitHead : SnailHeader :=
      { number := g.number
        nonce := g.nonce
        time := some (Int.ofNat g.timestamp)
        parentHash := g.parentHash
        extra := 0
        difficulty := none
        fruitDifficulty := some (Int.ediv gd E.fruitBlockRatioVal)
        mixDigest := 0
        coinbase := g.coinbase
        fastNumber := fastBlock.header.number
        fastHash := E.fastBlockHash fastBlock
        signHash := 0
        fruitsHash := 0 }
    .ok { header := head
          fruits := [{ header := fruitHead, signs := [] }]
          signs := [] }

/-- The persistent store, fast-ledger and snail-ledger regions together.
Key-value indexes are association lists (most recent write first); head
pointers are `Option Hash`.  The state trie written by `ToFastBlock` is
abstracted into `GEnv.allocRoot` and not part of this store. -/
structure Database where
  fastCanonical : List (Nat × Hash)
  fastBlocks : List (Hash × FastBlock)
  fastReceipts : List (Hash × Nat)
  fastHeadBlockHash : Option Hash
  fastHeadHeaderHash : Option Hash
  fastStateGc : Option Nat
  chainConfigs : List (Hash × Option Config)
  headerNumbers : List (Hash × Nat)
  snailCanonical : List (Nat × Hash)
  snailBlocks : List (Hash × SnailBlock)
  snailTds : List (Hash × Nat × Int)
  snailFtLookups : List Hash
  snailHeadBlockHash : Option Hash
  snailHeadHeaderHash : Option Hash
deriving DecidableEq, Repr

/-- `rawdb.ReadCanonicalHash` / `snaildb.ReadCanonicalHash`: the empty hash
`0` when the height is unindexed. -/
def readCanonicalHash (l : List (Nat × Hash)) (n : Nat) : Hash :=
  (l.lookup n).getD 0

/-- `Genesis.CommitFast` (lines 222-240): build the fast genesis block, refuse
a non-zero height, then write block, empty receipts, canonical hash, both head
pointers, the state-gc mark and the chain configuration. -/
def CommitFast (E : GEnv) (db : Database) (g : Genesis) :
    Except GErr (FastBlock × Database) :=
  match ToFastBlock E g with
  | .error e => .error e
  | .ok block =>
    if block.header.number ≠ 0 then .error GErr.commitNonzero
    else
      let h := E.fastBlockHash block
      let n := block.header.number % 2 ^ 64
      .ok (block,
        { db with
          fastBlocks := (h, block) :: db.fastBlocks
          fastReceipts := (h, n) :: db.fastReceipts
          fastCanonical := (n, h) :: db.fastCanonical
          fastHeadBlockHash := some h
          fastHeadHeaderHash := some h
          fastStateGc := some n
          chainConfigs :=
            (h, some (g.config.getD allMinervaProtocolChanges)) :: db.chainConfigs })

/-- `Genesis.CommitSnail` (lines 379-397): build the snail genesis block,
refuse a non-zero height, then write total difficulty, block, fruit-lookup
entries, canonical hash and both head pointers (no chain configuration — the
snail config write is commented out in the source). -/
def CommitSnail (E : GEnv) (db : Database) (g : Genesis) :
    Except GErr (SnailBlock × Database) :=
  match ToSnailBlock E g with
  | .error e => .error e
  | .ok block =>
    if block.header.number ≠ 0 then .error GErr.commitNonzero
    else
      let h := E.snailGBlockHash block
      let n := block.header.number % 2 ^ 64
      .ok (block,
        { db with
          snailTds := (h, n, g.difficulty.getD E.genesisDifficulty) :: db.snailTds
          snailBlocks := (h, block) :: db.snailBlocks
          snailFtLookups := h :: db.snailFtLookups
          snailCanonical := (n, h) :: db.snailCanonical
          snailHeadBlockHash := some h
          snailHeadHeaderHash := some h })

/-- `Genesis.configOrDefault` (lines 462-477). -/
def configOrDefault (g : Option Genesis) (ghash : Hash) : Option Config :=
  match g with
  | some g0 => g0.config
  | none =>
    if ghash = MainnetGenesisHash then some mainnetChainConfig
    else if ghash = MainnetSnailGenesisHash then some mainnetChainConfig
    else if ghash = TestnetGenesisHash then some testnetChainConfig
    else if ghash = TestnetSnailGenesisHash then some testnetChainConfig
    else some allMinervaProtocolChanges

/-- The guard `genesis != nil && genesis.Config == nil` shared by all three
setup functions. -/
def genesisConfigMissing : Option Genesis → Bool
  | some g => g.config.isNone
  | none => false

/-- `DefaultGenesisBlock` (lines 410-460), the built-in main-net spec; the
hex byte strings are read as big-endian naturals. -/
def DefaultGenesisBlock : Genesis :=
  { config := some mainnetChainConfig
    nonce := 330
    timestamp := 0
    extraData := 0x54727565436861696E204D61696E4E6574
    gasLimit := 16777216
    difficulty := some 2147483648
    mixhash := 0
    coinbase := 0
    alloc :=
      [(0xa5F41eaf51d24c8eDcDF254F200f8a6D818a6836,
        { code := 0, balance := 65750000000000000000000000, nonce := 0 }),
       (0xbD1edee3bdD812BB5058Df1F1392dDdd99dE58cc,
        { code := 0, balance := 8250000000000000000000000, nonce := 0 })]
    committee :=
      [{ coinbase := 0xfC5659050350eB76F9Ebcc6c2b1598C3a2fFc625
         committeeBase := 0
         publickey := 0x0406e9c1f797fe21229f8146f5ecf837a545e4d7e96dc88903286ce3036f425f307c88418f902c9b08fd07e0aee0f249994cf19819235fd607acd38ce77f777d1a
         flag := 0
         mtype := 0 },
       { coinbase := 0xfC5659050350eB76F9Ebcc6c2b1598C3a2fFc625
         committeeBase := 0
         publickey := 0x04ce1b2f41acdb293408da34a84162bc313be4b8682c183c7bdd4891ac87c514549a14ac564a9de615e7e8eae75441b1332042a2d00160079b2714b4bed1665f29
         flag := 0
         mtype := 0 },
       { coinbase := 0xfC5659050350eB76F9Ebcc6c2b1598C3a2fFc625
         committeeBase := 0
         publickey := 0x045e020f6f27adf1bdc8e682c6fb7a7623d8a5899fa88702d436b18e245e35dd4b573c28565b4105abb48a14d5aa442326c56a9eb2fa3f8509aea3f5625cfd621b
         flag := 0
         mtype := 0 },
       { coinbase := 0xfC5659050350eB76F9Ebcc6c2b1598C3a2fFc625
         committeeBase := 0
         publickey := 0x04028b42cb580bd78579441c96fb25b54b284c3f3258bb7ec9e37828f716cfe2ca4fb3dabc51b3d4215f14715a0999c86ae9ce4bc4e4bccfbcf7b64b6969746fb8
         flag := 0
         mtype := 0 },
       { coinbase := 0xfC5659050350eB76F9Ebcc6c2b1598C3a2fFc625
         committeeBase := 0
         publickey := 0x04a36c5cc785b10b8d5c7f18f6387f511c060ca0760c06b816db5cdb087723d185f034988ce1a117cd81138f7c971d272a6b6e8affa49ccf82df0d0388c644a6c1
         flag := 0
         mtype := 0 },
       { coinbase := 0xfC5659050350eB76F9Ebcc6c2b1598C3a2fFc625
         committeeBase := 0
         publickey := 0x049b240252750233ffb2e2fb0872e9dc8029a0af2a0bf8cb494181eae1f2673d662bbbb56215a42cb509ec42e80b089e2d6be581d084f54efe094a3fba3e990717
         flag := 0
         mtype := 0 },
       { coinbase := 0xfC5659050350eB76F9Ebcc6c2b1598C3a2fFc625
         committeeBase := 0
         publickey := 0x048a0560f53440a84bad6286eb65a756a1a1880492e19f7500e4f3ef760b939b9fafb9e14660ce5fc7a90d45136117690beac13121d22952d054d4727b39764468
         flag := 0
         mtype := 0 },
       { coinbase := 0xfC5659050350eB76F9Ebcc6c2b1598C3a2fFc625
         committeeBase := 0
         publickey := 0x0409e96160f03587376c3dff6a3b2f8d6028afc25668aa653d7f1bfe9eff8fb1165474cb93d8b2f292a6e4364d5447ca28002ae211b1624e33447864511e1d4d5d
         flag := 0
         mtype := 0 },
       { coinbase := 0xfC5659050350eB76F9Ebcc6c2b1598C3a2fFc625
         committeeBase := 0
         publickey := 0x040d721ac02c250be372156b4bf2620e6bec1799c70105705fc8aee7f11a11b2a6697086ca2161176b85b663f2d9b98275644fd3971af5d08fd7f6070f45314f55
         flag := 0
         mtype := 0 },
       { coinbase := 0xfC5659050350eB76F9Ebcc6c2b1598C3a2fFc625
         committeeBase := 0
         publickey := 0x04487dc07260059573abe6e7bf3209c975985c49400092ec246d28cc4d1eb54a6f7f5eb8375a2f7d398f1e0bb75406e5d38451935cc16376ddbac5d057c66a231c
         flag := 0
         mtype := 0 },
       { coinbase := 0xfC5659050350eB76F9Ebcc6c2b1598C3a2fFc625
         committeeBase := 0
         publickey := 0x04f3611f44cd7913fbd2452040716e13c8759743dd44a566e94df1f81078234a45d36259ede0186cbbec3e2e7bd638d7fca1586ddf47d596bb41c668e39021556a
         flag := 0
         mtype := 0 },
       { coinbase := 0xfC5659050350eB76F9Ebcc6c2b1598C3a2fFc625
         committeeBase := 0
         publickey := 0x0465c75fa5e80eabd141b08a4345573d43d582b42aed524025e7dcac4919bc16eee14705f49da7f381747a5196de792ba4a11ede9079a9025e11bcb0930760ef2e
         flag := 0
         mtype := 0 },
       { coinbase := 0xfC5659050350eB76F9Ebcc6c2b1598C3a2fFc625
         committeeBase := 0
         publickey := 0x049a943801bd862f0287eacb8221f13bff351c63b7ab78c9a1f71472ae8a8c28779f32c4dcfd904f36d9edb54d8a0c57462654026cde4f5022fe2d99b63174b9ae
         flag := 0
         mtype := 0 },
       { coinbase := 0xfC5659050350eB76F9Ebcc6c2b1598C3a2fFc625
         committeeBase := 0
         publickey := 0x04c4e01103818ca955c9219000c297c928b02b89d0eb3043886f524d645e20251343bf117d5a1b553708638c7dca8d1a12fb6379ae2d20756b57fdc5052a0dd787
         flag := 0
         mtype := 0 }]
    number := 0
    gasUsed := 0
    parentHash := 0 }

/-- The configuration-resolution tail of `setupFastGenesisBlock`
(lines 191-217): recover a missing stored config, keep a non-mainnet config
when no spec was supplied, otherwise check forward-compatibility at the
current head height and write the resolved config unless a rewind is
required. -/
def setupFastConfig (E : GEnv) (db : Database) (genesis : Option Genesis)
    (stored : Hash) : Except GErr (Option Config × Hash × Option GErr × Database) :=
  let newcfg := configOrDefault genesis stored
  match db.chainConfigs.lookup stored with
  | none =>
    .ok (newcfg, stored, none,
      { db with chainConfigs := (stored, newcfg) :: db.chainConfigs })
  | some storedcfg =>
    if genesis = none ∧ stored ≠ MainnetGenesisHash then
      .ok (storedcfg, stored, none, db)
    else
      match db.headerNumbers.lookup (db.fastHeadHeaderHash.getD 0) with
      | none => .ok (newcfg, stored, some GErr.missingHeadNumber, db)
      | some height =>
        match E.checkCompatible storedcfg newcfg height with
        | some rewind =>
          if height ≠ 0 ∧ rewind ≠ 0 then
            .ok (newcfg, stored, some (GErr.configCompatError rewind), db)
          else
            .ok (newcfg, stored, none,
              { db with chainConfigs := (stored, newcfg) :: db.chainConfigs })
        | none =>
          .ok (newcfg, stored, none,
            { db with chainConfigs := (stored, newcfg) :: db.chainConfigs })

/-- `setupFastGenesisBlock` (lines 165-218).  The result is the returned
`(config, hash, error)` triple plus the store after the call; the outer
`Except` is a Go runtime panic. -/
def setupFastGenesisBlock (E : GEnv) (db : Database) (genesis : Option Genesis) :
    Except GErr (Option Config × Hash × Option GErr × Database) :=
  if genesisConfigMissing genesis then
    .ok (some allMinervaProtocolChanges, 0, some GErr.genesisNoConfig, db)
  else
    let stored := readCanonicalHash db.fastCanonical 0
    if stored = 0 then
      let g := genesis.getD DefaultGenesisBlock
      match CommitFast E db g with
      | .error GErr.commitNonzero => .error (GErr.goPanic panicNilBlockHash)
      | .error e => .error e
      | .ok (block, db1) => .ok (g.config, E.fastBlockHash block, none, db1)
    else
      match genesis with
      | some g =>
        match ToFastBlock E g with
        | .error e => .error e
        | .ok b =>
          let h := E.fastBlockHash b
          if h ≠ stored then
            .ok (g.config, h, some (GErr.genesisMismatch stored h), db)
          else setupFastConfig E db genesis stored
      | none => setupFastConfig E db genesis stored

/-- `setupSnailGenesisBlock` (lines 308-336): same shape as the fast setup but
with the snail store, and the configuration tail is only `configOrDefault`
(no store read or write). -/
def setupSnailGenesisBlock (E : GEnv) (db : Database) (genesis : Option Genesis) :
    Except GErr (Option Config × Hash × Option GErr × Database) :=
  if genesisConfigMissing genesis then
    .ok (some allMinervaProtocolChanges, 0, some GErr.genesisNoConfig, db)
  else
    let stored := readCanonicalHash db.snailCanonical 0
    if stored = 0 then
      let g := genesis.getD DefaultGenesisBlock
      match CommitSnail E db g with
      | .error GErr.commitNonzero => .error (GErr.goPanic panicNilBlockHash)
      | .error e => .error e
      | .ok (block, db1) => .ok (g.config, E.snailGBlockHash block, none, db1)
    else
      match genesis with
      | some g =>
        match ToSnailBlock E g with
        | .error e => .error e
        | .ok b =>
          let h := E.snailGBlockHash b
          if h ≠ stored then
            .ok (g.config, h, some (GErr.genesisMismatch stored h), db)
          else .ok (configOrDefault genesis stored, stored, none, db)
      | none => .ok (configOrDefault genesis stored, stored, none, db)

/-- `SetupGenesisBlock` (lines 140-150): the missing-configuration guard, then
the fast and snail sub-protocols in sequence over the shared store.  The
returned tuple is `(fast config, fast hash, snail hash, fast error)` plus the
final store: the snail sub-protocol's configuration and error are discarded
exactly as in the source (`_, snailHash, _ := setupSnailGenesisBlock(...)`). -/
def SetupGenesisBlock (E : GEnv) (db : Database) (genesis : Option Genesis) :
    Except GErr (Option Config × Hash × Hash × Option GErr × Database) :=
  if genesisConfigMissing genesis then
    .ok (some allMinervaProtocolChanges, 0, 0, some GErr.genesisNoConfig, db)
  else
    match setupFastGenesisBlock E db genesis with
    | .error e => .error e
    | .ok (fastConfig, fastHash, fastErr, db1) =>
      match setupSnailGenesisBlock E db1 genesis with
      | .error e => .error e
      | .ok (_, snailHash, _, db2) =>
        .ok (fastConfig, fastHash, snailHash, fastErr, db2)

/-- The `temp` initialisation of `ValidateBody` (lines 116-125): the parent's
last fruit's anchored fast number, or zero when the parent is the genesis
block; `none` when the source would panic (non-genesis parent with no
fruits). -/
def tempOf (pre : SnailBlock) : Option Nat :=
  if pre.header.number > 0 then (pre.fruits.getLast?).map Fruit.fastNumberU64
  else some 0

/-- Known-block check of `ValidateBody`, as a named stage. -/
def checkKnown (E : VEnv) (b : SnailBlock) : Option VErr :=
  if E.isCanonicalBlock (E.snailBlockHash b) b.numberU64 then
    some VErr.errKnownBlock
  else none

/-- Ancestor-linkability check of `ValidateBody`, as a named stage. -/
def checkAncestor (E : VEnv) (b : SnailBlock) : Option VErr :=
  if E.isCanonicalBlock b.parentHash (sub64 b.numberU64 1) then none
  else if E.hasBlock b.parentHash (sub64 b.numberU64 1) then
    some VErr.errPrunedAncestor
  else some VErr.errUnknownAncestor

/-- Fruit-count check of `ValidateBody`, as a named stage. -/
def checkCount (E : VEnv) (b : SnailBlock) : Option VErr :=
  if b.fruits.length = 0 then some VErr.errNoFruits
  else if b.fruits.length > E.maximumFruits ∨
          b.fruits.length < E.minimumFruits then some VErr.errNoFruits
  else none

/-- Parent lookup and `temp` initialisation of `ValidateBody`, as a named
stage. -/
def resolveTemp (E : VEnv) (b : SnailBlock) : Except VErr Nat :=
  match E.getBlock b.parentHash (sub64 b.numberU64 1) with
  | none => .error VErr.errUnknownAncestor
  | some pre =>
    if pre.header.number > 0 then
      match pre.fruits.getLast? with
      | none => .error (VErr.goPanic panicParentNoFruit)
      | some lf => .ok lf.fastNumberU64
    else .ok 0

/-- Anchored-range resolution of `ValidateBody`, as a named stage. -/
def resolveRange (E : VEnv) (b : SnailBlock) :
    Except VErr (FastHeader × FastHeader) :=
  match b.fruits.head?, b.fruits.getLast? with
  | some firstF, some lastF =>
    match E.getFastHeader firstF.fastHash firstF.fastNumberU64,
          E.getFastHeader lastF.fastHash lastF.fastNumberU64 with
    | some minfb, some maxfb => .ok (minfb, maxfb)
    | _, _ => .error VErr.errFutureBlock
  | _, _ => .error (VErr.goPanic panicNoFruit)

/-- Block-time monotonicity check of `ValidateBody`, as a named stage. -/
def checkBlockTime (b : SnailBlock) : Option VErr :=
  match b.fruits.getLast? with
  | some lastF =>
    match lastF.time, b.time with
    | some lt, some bt => if bt < lt then some VErr.errBlockTime else none
    | _, _ => some VErr.errBlockTime
  | none => some (VErr.goPanic panicNoFruit)

/-- Minimum-time-gap check of `ValidateBody`, as a named stage. -/
def checkGap (E : VEnv) (minfb maxfb : FastHeader) : Option VErr :=
  match maxfb.time, minfb.time with
  | some tmax, some tmin =>
    if tmax - tmin < E.minTimeGap then some VErr.errGapFruits else none
  | _, _ => some (VErr.goPanic panicNilTime)

/-- Fruit-set hash integrity check of `ValidateBody`, as a named stage. -/
def checkFruitsHash (E : VEnv) (b : SnailBlock) : Option VErr :=
  if E.deriveSha b.fruits = b.header.fruitsHash then none
  else some (VErr.fruitsHashMismatch (E.deriveSha b.fruits) b.header.fruitsHash)

/-- The check order `ValidateBody` actually implements, stage by stage and
short-circuiting at the first failure: known-block, ancestor linkability,
fruit-count bounds, parent lookup / `temp` initialisation, anchored-range
resolution, block-time monotonicity, minimum time gap, then the per-fruit
loop in which the contiguity test for each fruit is interleaved with that
fruit's full validation, and finally the fruit-set hash check. -/
def validateBodyOrdered (E : VEnv) (b : SnailBlock) : Except VErr Unit :=
  match checkKnown E b with
  | some e => .error e
  | none =>
    match checkAncestor E b with
    | some e => .error e
    | none =>
      match checkCount E b with
      | some e => .error e
      | none =>
        match resolveTemp E b with
        | .error e => .error e
        | .ok temp =>
          match resolveRange E b with
          | .error e => .error e
          | .ok (minfb, maxfb) =>
            match checkBlockTime b with
            | some e => .error e
            | none =>
              match checkGap E minfb maxfb with
              | some e => .error e
              | none =>
                match validateFruitSeq E b temp b.fruits with
                | .error e => .error e
                | .ok _ =>
                  match checkFruitsHash E b with
                  | some e => .error e
                  | none => .ok ()

/-- Fixture: a fast-chain header anchored by the fixture fruit. -/
def wFastHeaderA : FastHeader :=
  { number := 1, time := some 0, parentHash := 0, extra := 0, gasLimit := 0,
    gasUsed := 0, root := 0 }

/-- Fixture: a fruit anchoring fast block 1 with hash 201. -/
def wFruitA : Fruit :=
  { header :=
    { number := 0, nonce := 0, time := some 5, parentHash := 0, extra := 0,
      difficulty := none, fruitDifficulty := none, mixDigest := 0,
      coinbase := 0, fastNumber := 1, fastHash := 201, signHash := 0,
      fruitsHash := 0 }
    signs := [] }

/-- Fixture: a genesis parent snail block (height 0, no fruits). -/
def wParentA : SnailBlock :=
  { header :=
    { number := 0, nonce := 0, time := some 0, parentHash := 0, extra := 0,
      difficulty := none, fruitDifficulty := none, mixDigest := 0,
      coinbase := 0, fastNumber := 0, fastHash := 0, signHash := 0,
      fruitsHash := 0 }
    fruits := []
    signs := [] }

/-- Fixture: a height-1 candidate snail block carrying the fixture fruit. -/
def wBlockA : SnailBlock :=
  { header :=
    { number := 1, nonce := 0, time := some 10, parentHash := 100, extra := 0,
      difficulty := none, fruitDifficulty := none, mixDigest := 0,
      coinbase := 0, fastNumber := 0, fastHash := 0, signHash := 0,
      fruitsHash := 77 }
    fruits := [wFruitA]
    signs := [] }

/-- Fixture: a validator environment under which `wBlockA` passes every check
of `ValidateBody`. -/
def wEnvA : VEnv :=
  { isCanonicalBlock := fun h n => h == 100 && n == 0
    hasBlock := fun _ _ => false
    getBlock := fun h n => if h = 100 ∧ n = 0 then some wParentA else none
    getFastHeader := fun h n => if h = 201 ∧ n = 1 then some wFastHeaderA else none
    currentFastNumber := 10
    verifyFreshness := fun _ _ _ => none
    verifySnailHeader := fun _ _ _ => none
    verifySigns := fun _ _ _ => none
    calcSignHash := fun _ => 0
    deriveSha := fun _ => 77
    snailBlockHash := fun _ => 7
    maximumFruits := 10
    minimumFruits := 1
    minTimeGap := 0 }

/-- Fixture: a fruit with a contiguity gap (anchors fast block 5 though the
parent history ends at 0). -/
def cFruitB : Fruit :=
  { header :=
    { number := 0, nonce := 0, time := some 5, parentHash := 0, extra := 0,
      difficulty := none, fruitDifficulty := none, mixDigest := 0,
      coinbase := 0, fastNumber := 5, fastHash := 201, signHash := 0,
      fruitsHash := 0 }
    signs := [] }

/-- Fixture: a candidate whose single fruit both violates contiguity and
anchors a fast block unknown to the fast chain. -/
def cBlockB : SnailBlock :=
  { header := wBlockA.header
    fruits := [cFruitB]
    signs := [] }

/-- Fixture: `wEnvA` with an empty fast chain (every header lookup fails). -/
def cEnvB : VEnv := { wEnvA with getFastHeader := fun _ _ => none }

/-- Fixture: genesis-coordinator collaborators; public key `999` is the one
byte string `crypto.UnmarshalPubkey` rejects. -/
def gEnvA : GEnv :=
  { fastBlockHash := fun _ => 11
    snailGBlockHash := fun _ => 22
    unmarshalPubkey := fun b => if b = 999 then none else some b
    pubkeyToAddress := fun pk => pk + 1
    allocRoot := fun _ => 3
    checkCompatible := fun _ _ _ => none
    genesisGasLimit := 4712388
    genesisDifficulty := 6000000
    fruitBlockRatioVal := 600 }

/-- Fixture: a well-formed genesis spec with one committee member. -/
def gSpecA : Genesis :=
  { config := some mainnetChainConfig
    nonce := 1
    timestamp := 2
    extraData := 0
    gasLimit := 5
    difficulty := some 1200
    mixhash := 0
    coinbase := 9
    alloc := []
    committee := [{ coinbase := 9, committeeBase := 0, publickey := 42,
                    flag := 0, mtype := 0 }]
    number := 0
    gasUsed := 0
    parentHash := 0 }

/-- Fixture: `gSpecA` with its protocol configuration absent. -/
def gSpecNoCfg : Genesis := { gSpecA with config := none }

/-- Fixture: `gSpecA` whose only committee member carries an invalid
public-key encoding. -/
def gSpecBad : Genesis :=
  { gSpecA with
    committee := [{ coinbase := 9, committeeBase := 0, publickey := 999,
                    flag := 0, mtype := 0 }] }

/-- Fixture: an empty store. -/
def dbEmpty : Database :=
  { fastCanonical := [], fastBlocks := [], fastReceipts := [],
    fastHeadBlockHash := none, fastHeadHeaderHash := none, fastStateGc := none,
    chainConfigs := [], headerNumbers := [], snailCanonical := [],
    snailBlocks := [], snailTds := [], snailFtLookups := [],
    snailHeadBlockHash := none, snailHeadHeaderHash := none }

/-- Fixture: a store whose height-zero hashes (55 fast, 66 snail) both differ
from the hashes `gEnvA` recomputes (11 fast, 22 snail). -/
def dbMismatch : Database :=
  { dbEmpty with fastCanonical := [(0, 55)], snailCanonical := [(0, 66)] }

/-- Fixture: a store matching `gSpecA`'s fast genesis (hash 11) but holding a
different snail genesis (66 instead of 22). -/
def dbFastMatch : Database :=
  { dbEmpty with fastCanonical := [(0, 11)], snailCanonical := [(0, 66)] }

/-- Fixture: `dbFastMatch` after the fast sub-protocol's recovery write of the
chain configuration. -/
def dbFastMatchW : Database :=
  { dbFastMatch with chainConfigs := [(11, some mainnetChainConfig)] }

/-- Fixture: the normalized committee member of `ToFastBlock gEnvA gSpecA`. -/
def wMemberA : CommitteeMember :=
  { coinbase := 9, committeeBase := 43, publickey := 42,
    flag := StateUsedFlag, mtype := TypeFixed }

/-- Fixture: the fast genesis block `ToFastBlock gEnvA gSpecA` evaluates to. -/
def gFastA : FastBlock :=
  { header :=
    { number := 0, time := some 2, parentHash := 0, extra := 0, gasLimit := 5,
      gasUsed := 0, root := 3 }
    committee := [wMemberA] }

/-- Fixture: the synthetic fruit of the snail genesis block
`ToSnailBlock gEnvA gSpecA` evaluates to. -/
def gSnailFruitA : Fruit :=
  { header :=
    { number := 0, nonce := 1, time := some 2, parentHash := 0,
      extra := 0, difficulty := none, fruitDifficulty := some 2,
      mixDigest := 0, coinbase := 9, fastNumber := 0, fastHash := 11,
      signHash := 0, fruitsHash := 0 }
    signs := [] }

/-- Fixture: the snail genesis block `ToSnailBlock gEnvA gSpecA` evaluates
to. -/
def gSnailA : SnailBlock :=
  { header :=
    { number := 0, nonce := 1, time := some 2, parentHash := 0, extra := 0,
      difficulty := some 1200, fruitDifficulty := none, mixDigest := 0,
      coinbase := 9, fastNumber := 0, fastHash := 0, signHash := 0,
      fruitsHash := 0 }
    fruits := [gSnailFruitA]
    signs := [] }

theorem sub64_eq_one_iff (a b : Nat) (ha : a < 2 ^ 64) (hb : b + 1 < 2 ^ 64) :
    sub64 a b = 1 ↔ a = b + 1 := by
  unfold sub64
  omega

theorem fastNumberU64_lt (f : Fruit) : f.fastNumberU64 < 2 ^ 64 :=
  Nat.mod_lt _ (by norm_num)

theorem normalizeMembers_mem (E : GEnv) :
    ∀ (l l' : List CommitteeMember), normalizeMembers E l = .ok l' →
      ∀ m ∈ l', m.flag = StateUsedFlag ∧ m.mtype = TypeFixed ∧
        ∃ pk, E.unmarshalPubkey m.publickey = some pk ∧
          m.committeeBase = E.pubkeyToAddress pk := by
  intro l
  induction l with
  | nil =>
    intro l' h m hm
    unfold normalizeMembers at h
    cases h
    simp at hm
  | cons a as ih =>
    intro l' h m hm
    unfold normalizeMembers at h
    cases hu : E.unmarshalPubkey a.publickey with
    | none => rw [hu] at h; cases h
    | some pk =>
      rw [hu] at h
      cases hr : normalizeMembers E as with
      | error e => rw [hr] at h; cases h
      | ok rest' =>
        rw [hr] at h
        cases h
        rcases List.mem_cons.mp hm with hm | hm
        · subst hm
          exact ⟨rfl, rfl, pk, hu, rfl⟩
        · exact ih rest' hr m hm

theorem normalizeMembers_panic (E : GEnv) :
    ∀ (l : List CommitteeMember) (m : CommitteeMember), m ∈ l →
      E.unmarshalPubkey m.publickey = none →
      normalizeMembers E l = .error (GErr.goPanic panicNilPubkey) := by
  intro l
  induction l with
  | nil => intro m hm; simp at hm
  | cons a as ih =>
    intro m hm hu
    unfold normalizeMembers
    rcases List.mem_cons.mp hm with h | h
    · subst h
      rw [hu]
    · cases hua : E.unmarshalPubkey a.publickey with
      | none => rfl
      | some pk => rw [ih m h hu]

/-- C8: every committee member of a genesis fast block constructed by
`Genesis.ToFastBlock` has its committee-base address equal to the address
recovered from its public key (`pubkeyToAddress` after `unmarshalPubkey`),
its flag forced to the active flag `StateUsedFlag`, and its member type
forced to the fixed tag `TypeFixed`. -/
theorem toFastBlock_committee_normalized (E : GEnv) (g : Genesis)
    (b : FastBlock) (h : ToFastBlock E g = .ok b) :
    ∀ m ∈ b.committee, m.flag = StateUsedFlag ∧ m.mtype = TypeFixed ∧
      ∃ pk, E.unmarshalPubkey m.publickey = some pk ∧
        m.committeeBase = E.pubkeyToAddress pk := by
  unfold ToFastBlock at h
  cases hnm : normalizeMembers E g.committee with
  | error e => rw [hnm] at h; cases h
  | ok members =>
    rw [hnm] at h
    cases h
    exact normalizeMembers_mem E g.committee members hnm

/-- Witness for C8 at the concrete spec `gSpecA` under `gEnvA`: the single
normalized member `wMemberA`. -/
theorem toFastBlock_committee_normalized_witness :
    wMemberA.flag = StateUsedFlag ∧ wMemberA.mtype = TypeFixed ∧
      wMemberA.committeeBase = gEnvA.pubkeyToAddress 42 := by
  obtain ⟨h1, h2, pk, hpk, hba⟩ :=
    toFastBlock_committee_normalized gEnvA gSpecA gFastA (by decide) wMemberA
      (by decide)
  have h42 : some (42 : Pubkey) = some pk := hpk
  injection h42 with h42
  subst h42
  exact ⟨h1, h2, hba⟩

/-- C9: the snail genesis block produced by `Genesis.ToSnailBlock` contains
exactly one synthetic fruit; that fruit anchors the fast genesis block
derived from the same spec (its anchored fast number and fast hash are the
fast genesis block's number and hash), and it carries no signatures. -/
theorem toSnailBlock_single_fruit (E : GEnv) (g : Genesis) (fb : FastBlock)
    (sb : SnailBlock) (hf : ToFastBlock E g = .ok fb)
    (hs : ToSnailBlock E g = .ok sb) :
    ∃ fr, sb.fruits = [fr] ∧ fr.header.fastNumber = fb.header.number ∧
      fr.header.fastHash = E.fastBlockHash fb ∧ fr.signs = [] := by
  unfold ToSnailBlock at hs
  rw [hf] at hs
  cases hs
  exact ⟨_, rfl, rfl, rfl, rfl⟩

/-- Witness for C9 at the concrete spec `gSpecA` under `gEnvA`: the single
synthetic fruit `gSnailFruitA`. -/
theorem toSnailBlock_single_fruit_witness :
    gSnailA.fruits = [gSnailFruitA] ∧
      gSnailFruitA.header.fastNumber = gFastA.header.number ∧
      gSnailFruitA.header.fastHash = gEnvA.fastBlockHash gFastA ∧
      gSnailFruitA.signs = [] := by
  obtain ⟨fr, h1, h2, h3, h4⟩ :=
    toSnailBlock_single_fruit gEnvA gSpecA gFastA gSnailA (by decide) (by decide)
  have h1' : ([gSnailFruitA] : List Fruit) = [fr] := h1
  have hfr : gSnailFruitA = fr := by simpa using h1'
  rw [← hfr] at h1 h2 h3 h4
  exact ⟨h1, h2, h3, h4⟩

/-- C10: a genesis spec containing a committee member whose public-key bytes
fail to unmarshal makes genesis construction panic (a nil-pointer
dereference, modelled as `goPanic panicNilPubkey`) instead of returning a
typed error: `ToFastBlock` dereferences the nil result of the discarded
unmarshal failure, and `CommitFast` and `SetupGenesisBlock` on a store with
no fast genesis propagate the panic. -/
theorem toFastBlock_bad_pubkey_panics (E : GEnv) (db : Database) (g : Genesis)
    (m : CommitteeMember) (c : Config) (hm : m ∈ g.committee)
    (hu : E.unmarshalPubkey m.publickey = none) (hc : g.config = some c)
    (hs : readCanonicalHash db.fastCanonical 0 = 0) :
    ToFastBlock E g = .error (GErr.goPanic panicNilPubkey) ∧
    CommitFast E db g = .error (GErr.goPanic panicNilPubkey) ∧
    SetupGenesisBlock E db (some g) = .error (GErr.goPanic panicNilPubkey) := by
  have hfb : ToFastBlock E g = .error (GErr.goPanic panicNilPubkey) := by
    unfold ToFastBlock
    rw [normalizeMembers_panic E g.committee m hm hu]
  have hcf : CommitFast E db g = .error (GErr.goPanic panicNilPubkey) := by
    unfold CommitFast
    rw [hfb]
  refine ⟨hfb, hcf, ?_⟩
  have hmiss : genesisConfigMissing (some g) = false := by
    simp [genesisConfigMissing, hc]
  have hsf : setupFastGenesisBlock E db (some g) =
      .error (GErr.goPanic panicNilPubkey) := by
    unfold setupFastGenesisBlock
    simp [hmiss, hs, hcf]
  unfold SetupGenesisBlock
  simp [hmiss, hsf]

/-- Witness for C10: the concrete spec `gSpecBad` (whose only member carries
the rejected key `999`) on the empty store. -/
theorem toFastBlock_bad_pubkey_panics_witness :
    ToFastBlock gEnvA gSpecBad = .error (GErr.goPanic panicNilPubkey) ∧
    CommitFast gEnvA dbEmpty gSpecBad = .error (GErr.goPanic panicNilPubkey) ∧
    SetupGenesisBlock gEnvA dbEmpty (some gSpecBad) =
      .error (GErr.goPanic panicNilPubkey) :=
  toFastBlock_bad_pubkey_panics gEnvA dbEmpty gSpecBad
    { coinbase := 9, committeeBase := 0, publickey := 999, flag := 0, mtype := 0 }
    mainnetChainConfig (by decide) (by decide) (by decide) (by decide)

/-- C2: when a store already holds a height-zero canonical hash that differs
from the hash recomputed deterministically from the supplied spec, each
per-ledger sub-protocol of `SetupGenesisBlock` (`setupFastGenesisBlock`,
`setupSnailGenesisBlock`) returns a `genesisMismatch` error carrying the
stored and the recomputed hash, and leaves the store untouched. -/
theorem setupGenesis_mismatch_no_writes (E : GEnv) (db : Database)
    (g : Genesis) (c : Config) (fb : FastBlock) (sb : SnailBlock)
    (hc : g.config = some c)
    (hfb : ToFastBlock E g = .ok fb) (hsb : ToSnailBlock E g = .ok sb)
    (hfs : readCanonicalHash db.fastCanonical 0 ≠ 0)
    (hfm : E.fastBlockHash fb ≠ readCanonicalHash db.fastCanonical 0)
    (hss : readCanonicalHash db.snailCanonical 0 ≠ 0)
    (hsm : E.snailGBlockHash sb ≠ readCanonicalHash db.snailCanonical 0) :
    setupFastGenesisBlock E db (some g) = .ok (some c, E.fastBlockHash fb,
      some (GErr.genesisMismatch (readCanonicalHash db.fastCanonical 0)
        (E.fastBlockHash fb)), db) ∧
    setupSnailGenesisBlock E db (some g) = .ok (some c, E.snailGBlockHash sb,
      some (GErr.genesisMismatch (readCanonicalHash db.snailCanonical 0)
        (E.snailGBlockHash sb)), db) := by
  have hmiss : genesisConfigMissing (some g) = false := by
    simp [genesisConfigMissing, hc]
  constructor
  · unfold setupFastGenesisBlock
    simp [hmiss, hfs, hfb, hfm, hc]
  · unfold setupSnailGenesisBlock
    simp [hmiss, hss, hsb, hsm, hc]

/-- Witness for C2: `gSpecA` against the store `dbMismatch`, whose stored
hashes 55 and 66 differ from the recomputed 11 and 22. -/
theorem setupGenesis_mismatch_no_writes_witness :
    setupFastGenesisBlock gEnvA dbMismatch (some gSpecA) =
      .ok (some mainnetChainConfig, gEnvA.fastBlockHash gFastA,
        some (GErr.genesisMismatch (readCanonicalHash dbMismatch.fastCanonical 0)
          (gEnvA.fastBlockHash gFastA)), dbMismatch) ∧
    setupSnailGenesisBlock gEnvA dbMismatch (some gSpecA) =
      .ok (some mainnetChainConfig, gEnvA.snailGBlockHash gSnailA,
        some (GErr.genesisMismatch (readCanonicalHash dbMismatch.snailCanonical 0)
          (gEnvA.snailGBlockHash gSnailA)), dbMismatch) :=
  setupGenesis_mismatch_no_writes gEnvA dbMismatch gSpecA mainnetChainConfig
    gFastA gSnailA (by decide) (by decide) (by decide) (by decide) (by decide)
    (by decide) (by decide)

/-- C3: `SetupGenesisBlock` with a non-nil genesis spec whose protocol
configuration is nil fails with the missing-configuration error
`genesisNoConfig` and performs no store writes, whatever the store holds. -/
theorem setupGenesisBlock_missing_config (E : GEnv) (db : Database)
    (g : Genesis) (hc : g.config = none) :
    SetupGenesisBlock E db (some g) =
      .ok (some allMinervaProtocolChanges, 0, 0, some GErr.genesisNoConfig, db) := by
  unfold SetupGenesisBlock
  simp [genesisConfigMissing, hc]

/-- Witness for C3: the spec `gSpecNoCfg` against the non-empty store
`dbMismatch`. -/
theorem setupGenesisBlock_missing_config_witness :
    SetupGenesisBlock gEnvA dbMismatch (some gSpecNoCfg) =
      .ok (some allMinervaProtocolChanges, 0, 0, some GErr.genesisNoConfig,
        dbMismatch) :=
  setupGenesisBlock_missing_config gEnvA dbMismatch gSpecNoCfg (by decide)

/-- C4 (code evidence): on the store `dbFastMatch` — fast genesis matching
`gSpecA`, snail genesis different — the snail sub-protocol fails with a
genesis-mismatch error while the fast sub-protocol succeeds, yet
`SetupGenesisBlock` returns `none` in its error component: the snail
sub-protocol's error is discarded by the `_` binding at line 146 of the
source, so the failure is not observable in `SetupGenesisBlock`'s result,
contradicting the claim that both error channels surface to the caller. -/
theorem setupGenesisBlock_discards_snail_error :
    setupFastGenesisBlock gEnvA dbFastMatch (some gSpecA) =
      .ok (some mainnetChainConfig, 11, none, dbFastMatchW) ∧
    setupSnailGenesisBlock gEnvA dbFastMatchW (some gSpecA) =
      .ok (some mainnetChainConfig, 22, some (GErr.genesisMismatch 66 22),
        dbFastMatchW) ∧
    SetupGenesisBlock gEnvA dbFastMatch (some gSpecA) =
      .ok (some mainnetChainConfig, 11, 22, none, dbFastMatchW) := by
  refine ⟨by decide, by decide, by decide⟩

theorem validateFruit_error_cases (E : VEnv) (f : Fruit) (b : Option SnailBlock)
    (c : Bool) (e : VErr) (h : ValidateFruit E f b c = .error e) :
    e = VErr.errFutureBlock ∨ e = VErr.errInvalidFast ∨ e = VErr.errFruitTime ∨
    e = VErr.errInvalidSignHash ∨ ∃ n, e = VErr.engine n := by
  unfold ValidateFruit at h
  split at h
  · exact Or.inl (Except.error.inj h).symm
  · split at h
    · exact Or.inr (Or.inl (Except.error.inj h).symm)
    · split at h
      · split at h
        · exact Or.inr (Or.inr (Or.inl (Except.error.inj h).symm))
        · split at h
          · exact Or.inr (Or.inr (Or.inr (Or.inl (Except.error.inj h).symm)))
          · split at h
            · rename_i n _
              exact Or.inr (Or.inr (Or.inr (Or.inr ⟨n, (Except.error.inj h).symm⟩)))
            · split at h
              · rename_i n _
                exact Or.inr (Or.inr (Or.inr (Or.inr ⟨n, (Except.error.inj h).symm⟩)))
              · split at h
                · rename_i n _
                  exact Or.inr (Or.inr (Or.inr (Or.inr ⟨n, (Except.error.inj h).symm⟩)))
                · cases h
      · exact Or.inr (Or.inr (Or.inl (Except.error.inj h).symm))

theorem validateFruitSeq_error_cases (E : VEnv) (b : SnailBlock) :
    ∀ (l : List Fruit) (t : Nat) (e : VErr),
      validateFruitSeq E b t l = .error e →
      e = VErr.errInvalidFruits ∨ e = VErr.errFutureBlock ∨
      e = VErr.errInvalidFast ∨ e = VErr.errFruitTime ∨
      e = VErr.errInvalidSignHash ∨ ∃ n, e = VErr.engine n := by
  intro l
  induction l with
  | nil => intro t e h; cases h
  | cons f rest ih =>
    intro t e h
    unfold validateFruitSeq at h
    split at h
    · exact Or.inl (Except.error.inj h).symm
    · split at h
      · rename_i e' he'
        cases h
        exact Or.inr (validateFruit_error_cases E f (some b) false e he')
      · exact ih _ e h

theorem validateFruitSeq_ok (E : VEnv) (b : SnailBlock) :
    ∀ (l : List Fruit) (t : Nat),
      (∀ f ∈ l, ValidateFruit E f (some b) false = .ok ()) →
      t + l.length < 2 ^ 64 →
      l.map Fruit.fastNumberU64 = List.range' (t + 1) l.length →
      validateFruitSeq E b t l = .ok () := by
  intro l
  induction l with
  | nil => intro t _ _ _; rfl
  | cons f rest ih =>
    intro t hvalid hlen hcont
    rw [List.length_cons, List.range'_succ, List.map_cons, List.cons.injEq] at hcont
    unfold validateFruitSeq
    have hb : t + 1 < 2 ^ 64 := by
      simp only [List.length_cons] at hlen
      omega
    have h1 : sub64 f.fastNumberU64 t = 1 :=
      (sub64_eq_one_iff _ _ (fastNumberU64_lt f) hb).mpr hcont.1
    rw [if_neg (by simp [h1])]
    rw [hvalid f (List.mem_cons_self f rest)]
    have := ih (t + 1) (fun g hg => hvalid g (List.mem_cons_of_mem f hg))
      (by simp only [List.length_cons] at hlen; omega) hcont.2
    rw [hcont.1]
    exact this

theorem validateFruitSeq_err (E : VEnv) (b : SnailBlock) :
    ∀ (l : List Fruit) (t : Nat),
      (∀ f ∈ l, ValidateFruit E f (some b) false = .ok ()) →
      t + l.length < 2 ^ 64 →
      l.map Fruit.fastNumberU64 ≠ List.range' (t + 1) l.length →
      validateFruitSeq E b t l = .error VErr.errInvalidFruits := by
  intro l
  induction l with
  | nil => intro t _ _ hne; exact absurd rfl hne
  | cons f rest ih =>
    intro t hvalid hlen hne
    rw [List.length_cons, List.range'_succ, List.map_cons, Ne,
      List.cons.injEq, not_and_or] at hne
    unfold validateFruitSeq
    have hb : t + 1 < 2 ^ 64 := by
      simp only [List.length_cons] at hlen
      omega
    by_cases hf : f.fastNumberU64 = t + 1
    · have h1 : sub64 f.fastNumberU64 t = 1 :=
        (sub64_eq_one_iff _ _ (fastNumberU64_lt f) hb).mpr hf
      rw [if_neg (by simp [h1])]
      rw [hvalid f (List.mem_cons_self f rest)]
      have hne' : rest.map Fruit.fastNumberU64 ≠ List.range' (t + 1 + 1) rest.length := by
        rcases hne with hne | hne
        · exact absurd hf hne
        · exact hne
      have := ih (t + 1) (fun g hg => hvalid g (List.mem_cons_of_mem f hg))
        (by simp only [List.length_cons] at hlen; omega) hne'
      rw [hf]
      exact this
    · have h1 : sub64 f.fastNumberU64 t ≠ 1 := fun hc =>
        hf ((sub64_eq_one_iff _ _ (fastNumberU64_lt f) hb).mp hc)
      rw [if_pos h1]

theorem validateBody_reach (E : VEnv) (blk pre : SnailBlock) (temp : Nat)
    (h1 : E.isCanonicalBlock (E.snailBlockHash blk) blk.numberU64 = false)
    (h2 : E.isCanonicalBlock blk.parentHash (sub64 blk.numberU64 1) = true)
    (h3 : blk.fruits.length ≠ 0)
    (h4 : ¬(blk.fruits.length > E.maximumFruits ∨
            blk.fruits.length < E.minimumFruits))
    (h5 : E.getBlock blk.parentHash (sub64 blk.numberU64 1) = some pre)
    (h6 : tempOf pre = some temp) :
    ValidateBody E blk = validateBodyFrom E blk temp := by
  unfold ValidateBody
  rw [h1, h2]
  simp only [Bool.false_eq_true, if_false, not_true, if_neg h3, if_neg h4, h5]
  unfold tempOf at h6
  by_cases hp : pre.header.number > 0
  · rw [if_pos hp] at h6
    rw [if_pos hp]
    cases hgl : pre.fruits.getLast? with
    | none => rw [hgl] at h6; cases h6
    | some lf =>
      rw [hgl] at h6
      simp only [Option.map_some'] at h6
      cases h6
      rfl
  · rw [if_neg hp] at h6
    cases h6
    rw [if_neg hp]

theorem validateBodyFrom_reduce (E : VEnv) (blk : SnailBlock) (temp : Nat)
    (firstF lastF : Fruit) (minfb maxfb : FastHeader) (lt bt tmin tmax : Int)
    (hhead : blk.fruits.head? = some firstF)
    (hlast : blk.fruits.getLast? = some lastF)
    (hminf : E.getFastHeader firstF.fastHash firstF.fastNumberU64 = some minfb)
    (hmaxf : E.getFastHeader lastF.fastHash lastF.fastNumberU64 = some maxfb)
    (hlt : lastF.time = some lt) (hbt : blk.time = some bt) (hble : ¬ bt < lt)
    (htmax : maxfb.time = some tmax) (htmin : minfb.time = some tmin)
    (hgap : ¬ tmax - tmin < E.minTimeGap) :
    validateBodyFrom E blk temp =
      match validateFruitSeq E blk temp blk.fruits with
      | .error e => .error e
      | .ok _ =>
        if E.deriveSha blk.fruits = blk.header.fruitsHash then .ok ()
        else .error (VErr.fruitsHashMismatch (E.deriveSha blk.fruits)
          blk.header.fruitsHash) := by
  unfold validateBodyFrom
  simp only [hhead, hlast, hminf, hmaxf, hlt, hbt, htmax, htmin]
  rw [if_neg hble, if_neg hgap]

theorem validateBodyFrom_ne_noFruits (E : VEnv) (blk : SnailBlock) (t : Nat) :
    validateBodyFrom E blk t ≠ .error VErr.errNoFruits := by
  intro h
  unfold validateBodyFrom at h
  split at h
  · split at h
    · split at h
      · split at h
        · cases h
        · split at h
          · split at h
            · cases h
            · split at h
              · rename_i hs
                cases h
                have := validateFruitSeq_error_cases E blk blk.fruits t
                  VErr.errNoFruits hs
                simp at this
              · split at h
                · cases h
                · cases h
          · cases h
      · cases h
    · cases h
  · cases h

/-- C1: for a candidate that reaches the fruit loop of `ValidateBody` (all
checks before the loop pass; `temp` resolved from the parent as the source
does: the parent's last fruit's anchored fast number, or zero for a genesis
parent) and whose fruits all pass `ValidateFruit`, the body validation
returns the fruit-sequence error `errInvalidFruits` exactly when the anchored
fast-block numbers are not the contiguous run `temp+1, temp+2, ...`: any gap
or repeat yields `errInvalidFruits`, and a contiguous run never does. -/
theorem validateBody_contiguity_iff (E : VEnv) (blk pre : SnailBlock)
    (temp : Nat) (firstF lastF : Fruit) (minfb maxfb : FastHeader)
    (lt bt tmin tmax : Int)
    (h1 : E.isCanonicalBlock (E.snailBlockHash blk) blk.numberU64 = false)
    (h2 : E.isCanonicalBlock blk.parentHash (sub64 blk.numberU64 1) = true)
    (h3 : blk.fruits.length ≠ 0)
    (h4 : ¬(blk.fruits.length > E.maximumFruits ∨
            blk.fruits.length < E.minimumFruits))
    (h5 : E.getBlock blk.parentHash (sub64 blk.numberU64 1) = some pre)
    (h6 : tempOf pre = some temp)
    (hhead : blk.fruits.head? = some firstF)
    (hlast : blk.fruits.getLast? = some lastF)
    (hminf : E.getFastHeader firstF.fastHash firstF.fastNumberU64 = some minfb)
    (hmaxf : E.getFastHeader lastF.fastHash lastF.fastNumberU64 = some maxfb)
    (hlt : lastF.time = some lt) (hbt : blk.time = some bt) (hble : ¬ bt < lt)
    (htmax : maxfb.time = some tmax) (htmin : minfb.time = some tmin)
    (hgap : ¬ tmax - tmin < E.minTimeGap)
    (hvalid : ∀ f ∈ blk.fruits, ValidateFruit E f (some blk) false = .ok ())
    (hbound : temp + blk.fruits.length < 2 ^ 64) :
    (ValidateBody E blk = .error VErr.errInvalidFruits ↔
      blk.fruits.map Fruit.fastNumberU64 ≠
        List.range' (temp + 1) blk.fruits.length) := by
  rw [validateBody_reach E blk pre temp h1 h2 h3 h4 h5 h6,
    validateBodyFrom_reduce E blk temp firstF lastF minfb maxfb lt bt tmin tmax
      hhead hlast hminf hmaxf hlt hbt hble htmax htmin hgap]
  by_cases hcont : blk.fruits.map Fruit.fastNumberU64 =
      List.range' (temp + 1) blk.fruits.length
  · rw [validateFruitSeq_ok E blk blk.fruits temp hvalid hbound hcont]
    simp only [hcont, not_true, iff_false]
    split <;> simp
  · rw [validateFruitSeq_err E blk blk.fruits temp hvalid hbound hcont]
    simp [hcont]

/-- Witness for C1 at the contiguous fixture candidate `wBlockA`. -/
theorem validateBody_contiguity_iff_witness :
    (ValidateBody wEnvA wBlockA = .error VErr.errInvalidFruits ↔
      wBlockA.fruits.map Fruit.fastNumberU64 ≠
        List.range' (0 + 1) wBlockA.fruits.length) :=
  validateBody_contiguity_iff wEnvA wBlockA wParentA 0 wFruitA wFruitA
    wFastHeaderA wFastHeaderA 5 10 0 0 (by decide) (by decide) (by decide)
    (by decide) (by decide) (by decide) (by decide) (by decide) (by decide)
    (by decide) (by decide) (by decide) (by decide) (by decide) (by decide)
    (by decide) (by decide) (by decide)

/-- C6: once the known-block and ancestor checks pass, `ValidateBody` returns
the fruit-count error `errNoFruits` exactly when the fruit count is zero or
lies outside the configured `[minimumFruits, maximumFruits]` range; in
particular a zero count is rejected even when the configured minimum is 0,
and a non-zero count inside the inclusive range never trips the count
error. -/
theorem validateBody_fruit_count_iff (E : VEnv) (blk : SnailBlock)
    (h1 : E.isCanonicalBlock (E.snailBlockHash blk) blk.numberU64 = false)
    (h2 : E.isCanonicalBlock blk.parentHash (sub64 blk.numberU64 1) = true) :
    (ValidateBody E blk = .error VErr.errNoFruits ↔
      blk.fruits.length = 0 ∨ blk.fruits.length > E.maximumFruits ∨
        blk.fruits.length < E.minimumFruits) := by
  unfold ValidateBody
  rw [h1, h2]
  simp only [Bool.false_eq_true, if_false, not_true]
  by_cases hz : blk.fruits.length = 0
  · simp [hz]
  · rw [if_neg hz]
    by_cases hr : blk.fruits.length > E.maximumFruits ∨
        blk.fruits.length < E.minimumFruits
    · simp [hr, hz]
    · rw [if_neg hr]
      simp only [hz, hr, false_or, iff_false]
      cases hgb : E.getBlock blk.parentHash (sub64 blk.numberU64 1) with
      | none => simp
      | some pre =>
        simp only
        by_cases hp : pre.header.number > 0
        · rw [if_pos hp]
          cases hgl : pre.fruits.getLast? with
          | none => simp
          | some lf =>
            simp only
            exact validateBodyFrom_ne_noFruits E blk lf.fastNumberU64
        · rw [if_neg hp]
          exact validateBodyFrom_ne_noFruits E blk 0

/-- Witness for C6 at the fixture candidate `wBlockA` (count 1 inside the
configured range [1, 10]). -/
theorem validateBody_fruit_count_iff_witness :
    (ValidateBody wEnvA wBlockA = .error VErr.errNoFruits ↔
      wBlockA.fruits.length = 0 ∨ wBlockA.fruits.length > wEnvA.maximumFruits ∨
        wBlockA.fruits.length < wEnvA.minimumFruits) :=
  validateBody_fruit_count_iff wEnvA wBlockA (by decide) (by decide)

/-- C7: for a candidate that reaches the time-gap check of `ValidateBody`
(`temp` resolved, the anchored-range headers found, the block-time check
passed), the gap error `errGapFruits` is returned exactly when the difference
between the last and first anchored fast headers' timestamps is strictly
below the configured minimum gap; a difference exactly equal to the minimum
passes the gap check. -/
theorem validateBody_time_gap_iff (E : VEnv) (blk pre : SnailBlock)
    (temp : Nat) (firstF lastF : Fruit) (minfb maxfb : FastHeader)
    (lt bt tmin tmax : Int)
    (h1 : E.isCanonicalBlock (E.snailBlockHash blk) blk.numberU64 = false)
    (h2 : E.isCanonicalBlock blk.parentHash (sub64 blk.numberU64 1) = true)
    (h3 : blk.fruits.length ≠ 0)
    (h4 : ¬(blk.fruits.length > E.maximumFruits ∨
            blk.fruits.length < E.minimumFruits))
    (h5 : E.getBlock blk.parentHash (sub64 blk.numberU64 1) = some pre)
    (h6 : tempOf pre = some temp)
    (hhead : blk.fruits.head? = some firstF)
    (hlast : blk.fruits.getLast? = some lastF)
    (hminf : E.getFastHeader firstF.fastHash firstF.fastNumberU64 = some minfb)
    (hmaxf : E.getFastHeader lastF.fastHash lastF.fastNumberU64 = some maxfb)
    (hlt : lastF.time = some lt) (hbt : blk.time = some bt) (hble : ¬ bt < lt)
    (htmax : maxfb.time = some tmax) (htmin : minfb.time = some tmin) :
    (ValidateBody E blk = .error VErr.errGapFruits ↔
      tmax - tmin < E.minTimeGap) := by
  rw [validateBody_reach E blk pre temp h1 h2 h3 h4 h5 h6]
  unfold validateBodyFrom
  simp only [hhead, hlast, hminf, hmaxf, hlt, hbt, htmax, htmin]
  rw [if_neg hble]
  by_cases hg : tmax - tmin < E.minTimeGap
  · simp [hg]
  · rw [if_neg hg]
    simp only [hg, iff_false]
    cases hs : validateFruitSeq E blk temp blk.fruits with
    | error e =>
      simp only
      intro hc
      have he := Except.error.inj hc
      subst he
      have := validateFruitSeq_error_cases E blk blk.fruits temp _ hs
      simp at this
    | ok u =>
      simp only
      split <;> simp

/-- Witness for C7 at the fixture candidate `wBlockA` (gap 0 equal to the
configured minimum 0: the check passes). -/
theorem validateBody_time_gap_iff_witness :
    (ValidateBody wEnvA wBlockA = .error VErr.errGapFruits ↔
      (0 : Int) - 0 < wEnvA.minTimeGap) :=
  validateBody_time_gap_iff wEnvA wBlockA wParentA 0 wFruitA wFruitA
    wFastHeaderA wFastHeaderA 5 10 0 0 (by decide) (by decide) (by decide)
    (by decide) (by decide) (by decide) (by decide) (by decide) (by decide)
    (by decide) (by decide) (by decide) (by decide) (by decide) (by decide)

theorem validateBodyFrom_eq_stages (E : VEnv) (b : SnailBlock) (t : Nat) :
    validateBodyFrom E b t =
      match resolveRange E b with
      | .error e => .error e
      | .ok (minfb, maxfb) =>
        match checkBlockTime b with
        | some e => .error e
        | none =>
          match checkGap E minfb maxfb with
          | some e => .error e
          | none =>
            match validateFruitSeq E b t b.fruits with
            | .error e => .error e
            | .ok _ =>
              match checkFruitsHash E b with
              | some e => .error e
              | none => .ok () := by
  unfold validateBodyFrom resolveRange checkBlockTime checkGap checkFruitsHash
  cases hh : b.fruits.head? with
  | none => cases hl : b.fruits.getLast? <;> simp
  | some firstF =>
    cases hl : b.fruits.getLast? with
    | none => simp
    | some lastF =>
      simp only
      cases hm : E.getFastHeader firstF.fastHash firstF.fastNumberU64 with
      | none => cases hM : E.getFastHeader lastF.fastHash lastF.fastNumberU64 <;> simp
      | some minfb =>
        cases hM : E.getFastHeader lastF.fastHash lastF.fastNumberU64 with
        | none => simp
        | some maxfb =>
          simp only
          cases hlt : lastF.time with
          | none => cases hbt : b.time <;> simp
          | some lt =>
            cases hbt : b.time with
            | none => simp
            | some bt =>
              simp only
              by_cases hble : bt < lt
              · simp [hble]
              · rw [if_neg hble, if_neg hble]
                cases htM : maxfb.time with
                | none => cases htm : minfb.time <;> simp
                | some tmax =>
                  cases htm : minfb.time with
                  | none => simp
                  | some tmin =>
                    simp only
                    by_cases hg : tmax - tmin < E.minTimeGap
                    · simp [hg]
                    · rw [if_neg hg, if_neg hg]
                      cases hs : validateFruitSeq E b t b.fruits with
                      | error e => simp
                      | ok u =>
                        simp only
                        by_cases hd : E.deriveSha b.fruits = b.header.fruitsHash
                        · simp [hd]
                        · simp [hd]

/-- C5 (counterexample): a candidate whose single fruit both violates
contiguity (`validateFruitSeq` rejects it with the fruit-sequence error) and
anchors a fast block the fast chain cannot resolve is rejected by
`ValidateBody` with the anchored-range error `errFutureBlock`, not the
fruit-sequence error: under the claim's short-circuit-in-order semantics the
contiguity check over the whole fruit list would have completed (and failed)
before anchored-range resolution began, so the claimed order is false. -/
theorem validateBody_order_counterexample :
    ValidateBody cEnvB cBlockB = .error VErr.errFutureBlock ∧
    validateFruitSeq cEnvB cBlockB 0 cBlockB.fruits =
      .error VErr.errInvalidFruits ∧
    VErr.errFutureBlock ≠ VErr.errInvalidFruits :=
  ⟨by decide, by decide, by decide⟩

/-- C5 (amended): `ValidateBody` short-circuits through its checks in the
order known-block, ancestor linkability, fruit-count bounds, parent lookup /
`temp` initialisation, anchored-range resolution, block-time monotonicity,
minimum time gap, then the per-fruit loop in which the contiguity test for
each fruit is interleaved with that fruit's full validation (so contiguity of
a later fruit is only examined after every earlier fruit passed
`ValidateFruit`), and finally the fruit-set hash check — as captured by the
stage-by-stage pipeline `validateBodyOrdered`. -/
theorem validateBody_check_order (E : VEnv) (b : SnailBlock) :
    ValidateBody E b = validateBodyOrdered E b := by
  unfold ValidateBody validateBodyOrdered checkKnown checkAncestor checkCount
    resolveTemp
  cases h1 : E.isCanonicalBlock (E.snailBlockHash b) b.numberU64 with
  | true => simp
  | false =>
    simp only [Bool.false_eq_true, if_false, not_false_iff]
    cases h2 : E.isCanonicalBlock b.parentHash (sub64 b.numberU64 1) with
    | false =>
      simp only [Bool.false_eq_true, if_false, not_false_iff, if_true]
      cases h3 : E.hasBlock b.parentHash (sub64 b.numberU64 1) <;> simp
    | true =>
      simp only [if_true, not_true, if_false]
      by_cases h4 : b.fruits.length = 0
      · simp [h4]
      · rw [if_neg h4]
        simp only [h4, if_false]
        by_cases h5 : b.fruits.length > E.maximumFruits ∨
            b.fruits.length < E.minimumFruits
        · simp [h5]
        · rw [if_neg h5]
          simp only [h5, if_false]
          cases hgb : E.getBlock b.parentHash (sub64 b.numberU64 1) with
          | none => simp
          | some pre =>
            simp only
            by_cases hp : pre.header.number > 0
            · rw [if_pos hp, if_pos hp]
              cases hgl : pre.fruits.getLast? with
              | none => simp
              | some lf =>
                simp only
                exact validateBodyFrom_eq_stages E b lf.fastNumberU64
            · rw [if_neg hp, if_neg hp]
              exact validateBodyFrom_eq_stages E b 0
